import Mathlib

/-!
Verification of the gym-management backend (`main.py` / `models.py`) against its
natural-language specification.

The embedding is a shallow functional model of the relevant endpoints:
- the database session is a pure record `Gym.GymState` holding every table as a list
  of rows (ORM rows become structures keeping the source column names);
- `datetime.date` values are modelled as epoch day counts (`Int`); `date.today()`
  and `datetime.now()` are passed in as explicit parameters; `timedelta(days = n)`
  addition becomes integer addition and `extract('month'/'year', …)` uses a civil
  calendar conversion from day counts;
- `float` amounts and the `horario` column are modelled as rationals (the code
  only ever applies `abs` to them and compares them for equality);
- SQLAlchemy's `sha256` keyed hash (from `hashlib`) is an external library and is
  passed in as an abstract function parameter;
- endpoints that can raise return `Except`; a `try/commit/except/rollback` block
  becomes a wrapper returning the untouched input state on error.
-/

namespace Gym

/-- Python `datetime.date`, as a day count (days since 1970-01-01). -/
abbrev Date := Int

/-- Civil-calendar conversion from a day count: `(year, month, day)`.
Used to model SQL `extract('month'| 'year', date_column)`. -/
def civilFromDays (z0 : Int) : Int × Int × Int :=
  let z := z0 + 719468
  let era := Int.fdiv z 146097
  let doe := z - era * 146097
  let yoe := Int.fdiv (doe - Int.fdiv doe 1460 + Int.fdiv doe 36524 - Int.fdiv doe 146096) 365
  let y := yoe + era * 400
  let doy := doe - (365 * yoe + Int.fdiv yoe 4 - Int.fdiv yoe 100)
  let mp := Int.fdiv (5 * doy + 2) 153
  let d := doy - Int.fdiv (153 * mp + 2) 5 + 1
  let m := if mp < 10 then mp + 3 else mp - 9
  (y + (if m ≤ 2 then 1 else 0), m, d)

def dateYear (d : Date) : Int := (civilFromDays d).1

def dateMonth (d : Date) : Int := (civilFromDays d).2.1

/-- Python `needle_prefix_of`: does `n` begin `h`? (helper for substring tests). -/
def charsBeginWith : List Char → List Char → Bool
  | [], _ => true
  | _ :: _, [] => false
  | a :: as, b :: bs => a == b && charsBeginWith as bs

/-- Python `n in h` on strings (substring containment), on char lists. -/
def charsHaveSub (n : List Char) : List Char → Bool
  | [] => charsBeginWith n []
  | b :: bs => charsBeginWith n (b :: bs) || charsHaveSub n bs

/-- Python `needle in hay` for strings. -/
def pyIn (needle hay : String) : Bool := charsHaveSub needle.data hay.data

/-- Python `c in s` for a single-character needle. -/
def pyHasChar (s : String) (c : Char) : Bool := s.data.any (fun x => x == c)

/-- Python `s.lower()` (the source only lowercases ASCII role/type names). -/
def pyLower (s : String) : String := String.mk (s.data.map Char.toLower)

def pySplitChAux (c : Char) : List Char → List Char → List String
  | [], acc => [String.mk acc.reverse]
  | x :: xs, acc =>
    if x == c then String.mk acc.reverse :: pySplitChAux c xs []
    else pySplitChAux c xs (x :: acc)

/-- Python `s.split(sep)` for a one-character separator. -/
def pySplitCh (c : Char) (s : String) : List String := pySplitChAux c s.data []

/-- Python truthiness of an `Optional[int]` (`None` and `0` are falsy). -/
def intTruthy : Option Int → Bool
  | none => false
  | some n => n != 0

/-- Mutate the first row matched by a query predicate (SQLAlchemy
`query(...).filter(p).first()` followed by attribute assignment). -/
def updateFirst (p : α → Bool) (f : α → α) : List α → List α
  | [] => []
  | x :: xs => if p x then f x :: xs else x :: updateFirst p f xs

/-! ## Data model (`models.py`) -/

/-- `models.TipoPlan` (id, nombre, duracion_dias). -/
structure TipoPlan where
  id : Int
  nombre : String
  duracion_dias : Option Int
deriving Repr, DecidableEq

/-- `models.Plan`. `clases_mensuales` is `Column(Integer, default=12)`, nullable. -/
structure Plan where
  id : Int
  nombre : String
  precio : Rat
  tipo_plan_id : Option Int
  clases_mensuales : Option Int
deriving Repr, DecidableEq

/-- `models.Usuario`, restricted to the columns the verified endpoints touch.
`perfil_nombre` stands for the joined `Perfil.nombre` row reached through
`perfil_id` (the code only ever reads `user.perfil.nombre`). -/
structure Usuario where
  id : Int
  dni : String
  nombre_completo : String
  perfil_nombre : Option String
  plan_id : Option Int
  fecha_ultima_renovacion : Option Date
  fecha_vencimiento : Option Date
  estado_cuenta : String
deriving Repr, DecidableEq

/-- `models.Clase` (capacity columns only; schedule/display columns unused here). -/
structure Clase where
  id : Int
  nombre : String
  capacidad_max : Option Int
deriving Repr, DecidableEq

/-- `models.Reserva`. -/
structure Reserva where
  id : Int
  usuario_id : Int
  clase_id : Int
  fecha_reserva : Date
  horario : Rat
  dia_semana : Int
deriving Repr, DecidableEq

/-- `models.Stock` (catalog columns unused by the verified endpoints omitted). -/
structure Stock where
  id : Int
  nombre_producto : String
  precio_venta : Rat
  stock_actual : Int
deriving Repr, DecidableEq

/-- `models.MovimientoCaja` (ledger row). -/
structure MovimientoCaja where
  tipo : String
  monto : Rat
  descripcion : String
  metodo_pago : String
  fecha : Int
deriving Repr, DecidableEq

/-- `models.Acceso` (access-log row; `ip_address`/`user_agent` are never set by
the QR endpoint and are omitted). -/
structure Acceso where
  usuario_id : Int
  fecha : Int
  accion : String
  exitoso : Bool
  nombre : String
  dni : String
  rol : String
  metodo : String
deriving Repr, DecidableEq

/-- `models.Ejercicio` (library exercise). -/
structure Ejercicio where
  id : Int
  nombre : String
  grupo_muscular_id : Option Int
deriving Repr, DecidableEq

/-- `models.PlanRutina`. -/
structure PlanRutina where
  id : Int
  usuario_id : Int
  nombre_grupo : Option String
  descripcion : Option String
  fecha_creacion : Date
  fecha_vencimiento : Date
  objetivo : String
  activo : Bool
deriving Repr, DecidableEq

/-- `models.DiaRutina`. -/
structure DiaRutina where
  id : Int
  plan_rutina_id : Int
  nombre_dia : String
deriving Repr, DecidableEq

/-- `models.EjercicioEnRutina` (`rutina_id` is nullable and never set by the
endpoint; `comentarios` is never set). -/
structure EjercicioEnRutina where
  id : Int
  dia_id : Int
  ejercicio_id : Int
  comentario : Option String
deriving Repr, DecidableEq

/-- `models.SerieEjercicio`. -/
structure SerieEjercicio where
  id : Int
  ejercicio_en_rutina_id : Int
  numero_serie : Int
  repeticiones : String
  peso : String
  descanso : String
deriving Repr, DecidableEq

/-- The database session: every table as a list of rows, plus the next
autoincrement primary key. -/
structure GymState where
  usuarios : List Usuario
  planes : List Plan
  tipos_planes : List TipoPlan
  clases : List Clase
  reservas : List Reserva
  stock : List Stock
  caja : List MovimientoCaja
  accesos : List Acceso
  planes_rutina : List PlanRutina
  dias_rutina : List DiaRutina
  ejercicios_libreria : List Ejercicio
  ejercicios_en_rutina : List EjercicioEnRutina
  series_ejercicio : List SerieEjercicio
  nextId : Int
deriving Repr, DecidableEq

/-! ## QR access control (`validar_acceso_qr`, main.py) -/

/-- `main.SECRET_KEY`. -/
def SECRET_KEY : String := "Vikingo_Security_Strong_Key_2025"

/-- `roles_staff` from `validar_acceso_qr`. -/
def roles_staff : List String :=
  ["administracion", "administrativo", "profesor", "staff", "admin", "dueño", "supervisor"]

/-- The `final_response` dict of `validar_acceso_qr`. -/
structure AccessResponse where
  status : String
  message : String
  nombre : String
  rol : String
  color : String
deriving Repr, DecidableEq

/-- An unhandled Python exception escaping the endpoint (FastAPI turns it into
an HTTP 500). -/
inductive PyError
  | valueError
deriving Repr, DecidableEq

/-- `user.perfil.nombre if user.perfil else "Usuario"`. -/
def rolDeUsuario (user : Usuario) : String :=
  match user.perfil_nombre with
  | some p => p
  | none => "Usuario"

/-- The response `validar_acceso_qr` computes for a registered user: staff
roles pass unconditionally in blue, members are judged by their expiry date
(yellow within three days of it, green otherwise, red and DENIED past it), and
a member without an expiry date keeps the DENIED base response. -/
def accessRespuesta (today : Date) (user : Usuario) : AccessResponse :=
  let rol := rolDeUsuario user
  let found : AccessResponse :=
    { status := "DENIED", message := "Error desconocido",
      nombre := user.nombre_completo, rol := rol, color := "red" }
  if roles_staff.contains (pyLower rol) then
    { found with status := "AUTHORIZED", message := "Bienvenido Staff", color := "blue" }
  else
    match user.fecha_vencimiento with
    | some venc =>
      if venc ≥ today then
        let dias_rest := venc - today
        if dias_rest ≤ 3 then
          { found with status := "AUTHORIZED",
                       message := "¡Atención: Próximo a vencer!", color := "yellow" }
        else
          { found with status := "AUTHORIZED",
                       message := "Pase Válido (" ++ toString dias_rest ++ " días rest.)",
                       color := "green" }
      else
        { found with status := "DENIED",
                     message := "Plan Vencido el " ++ toString venc, color := "red" }
    | none => found

/-- The `Acceso` row `validar_acceso_qr` inserts for a processed attempt. -/
def accesoRow (now : Int) (dni_recibido : String) (user : Usuario)
    (resp : AccessResponse) : Acceso :=
  { usuario_id := user.id, fecha := now, accion := resp.status,
    exitoso := resp.status == "AUTHORIZED", nombre := user.nombre_completo,
    dni := dni_recibido, rol := resp.rol, metodo := "QR SCAN" }

/-- The guarded access-log write: committed when it succeeds, rolled back (the
exception is swallowed) when it fails, leaving the decision untouched. -/
def accessLogStep (now : Int) (logOk : Bool) (st : GymState) (dni_recibido : String)
    (user : Usuario) (resp : AccessResponse) : GymState :=
  if logOk then
    { st with accesos := st.accesos ++ [accesoRow now dni_recibido user resp] }
  else st

/-- `validar_acceso_qr` (main.py). `sha256hex s` stands for
`hashlib.sha256(s.encode()).hexdigest()`; `today`/`now` are `date.today()` and
`datetime.now()`; `logOk = false` models the access-log insert raising (the
`except` swallows it and rolls back only the log write). -/
def validar_acceso_qr (sha256hex : String → String) (today : Date) (now : Int)
    (logOk : Bool) (st : GymState) (qr_data : String) :
    Except PyError (GymState × AccessResponse) :=
  let base : AccessResponse :=
    { status := "DENIED", message := "Error desconocido", nombre := "Desconocido",
      rol := "N/A", color := "red" }
  if !(pyHasChar qr_data ':') then
    .ok (st, { base with message := "Formato de QR no válido" })
  else
    match pySplitCh ':' qr_data with
    | [dni_recibido, hash_recibido] =>
      let esperado := sha256hex (dni_recibido ++ SECRET_KEY)
      if hash_recibido != esperado then
        .ok (st, { base with message := "Código QR no autorizado o falsificado",
                             nombre := "Error Seguridad" })
      else
        match st.usuarios.find? (fun u => u.dni == dni_recibido) with
        | none => .ok (st, { base with message := "Usuario no registrado" })
        | some user =>
          let resp := accessRespuesta today user
          .ok (accessLogStep now logOk st dni_recibido user resp, resp)
    | _ => .error .valueError

instance {ε α : Type} [DecidableEq ε] [DecidableEq α] : DecidableEq (Except ε α) := fun x y =>
  match x, y with
  | .error e, .error f =>
    if h : e = f then isTrue (by rw [h]) else isFalse (fun hh => h (Except.error.inj hh))
  | .error _, .ok _ => isFalse (fun hh => Except.noConfusion hh)
  | .ok _, .error _ => isFalse (fun hh => Except.noConfusion hh)
  | .ok a, .ok b =>
    if h : a = b then isTrue (by rw [h]) else isFalse (fun hh => h (Except.ok.inj hh))

/-! ## Class booking (`book_clase`, main.py) -/

/-- `ReservaCreate` request schema. -/
structure ReservaCreate where
  usuario_id : Int
  clase_id : Int
  horario : Rat
  dia_semana : Int
deriving Repr, DecidableEq

/-- The failure modes of `book_clase`.  `quotaTypeError`/`capacidadTypeError`
stand for the Python `TypeError` raised when the nullable quota/capacity column
is `NULL` and compared with `<`/`>=`. -/
inductive BookError
  | usuarioNotFound
  | quotaTypeError
  | quotaExceeded (limite : Int)
  | duplicado
  | claseNotFound
  | capacidadTypeError
  | sinCupos
deriving Repr, DecidableEq

/-- HTTP status of each `book_clase` failure (404 `NotFound`, 400 `Conflict`,
500 unhandled). -/
def BookError.httpStatus : BookError → Nat
  | .usuarioNotFound => 404
  | .quotaTypeError => 500
  | .quotaExceeded _ => 400
  | .duplicado => 400
  | .claseNotFound => 404
  | .capacidadTypeError => 500
  | .sinCupos => 400

/-- `user.plan` relationship: resolve `plan_id` in `planes`. -/
def planDeUsuario (st : GymState) (user : Usuario) : Option Plan :=
  match user.plan_id with
  | none => none
  | some pid => st.planes.find? (fun p => p.id == pid)

/-- The monthly-quota count of `book_clase`: the person's bookings whose
`fecha_reserva` falls in the current calendar month and year. -/
def countReservasMes (st : GymState) (uid : Int) (today : Date) : Nat :=
  st.reservas.countP (fun r => r.usuario_id == uid
    && dateMonth r.fecha_reserva == dateMonth today
    && dateYear r.fecha_reserva == dateYear today)

/-- The quota block of `book_clase` (lines guarded by `if user.plan:`). -/
def quotaStep (st : GymState) (user : Usuario) (today : Date) : Except BookError Unit :=
  match planDeUsuario st user with
  | none => .ok ()
  | some plan =>
    match plan.clases_mensuales with
    | none => .error .quotaTypeError
    | some limite =>
      if limite < 999 then
        if (countReservasMes st user.id today : Int) ≥ limite then
          .error (.quotaExceeded limite)
        else .ok ()
      else .ok ()

/-- The duplicate-booking query of `book_clase`: same person, slot, time and
day-of-week — no date filter. -/
def findReservaDuplicada (st : GymState) (d : ReservaCreate) : Option Reserva :=
  st.reservas.find? (fun r => r.usuario_id == d.usuario_id && r.clase_id == d.clase_id
    && r.horario == d.horario && r.dia_semana == d.dia_semana)

/-- Occupancy of a (slot, time, day-of-week) tuple, across all persons and dates. -/
def cupoTurno (st : GymState) (clase_id : Int) (horario : Rat) (dia : Int) : Nat :=
  st.reservas.countP (fun r => r.clase_id == clase_id
    && r.horario == horario && r.dia_semana == dia)

/-- The `Reserva` row inserted by `book_clase`: dated today, carrying the
requested slot, time and day-of-week. -/
def nuevaReserva (today : Date) (st : GymState) (d : ReservaCreate) : Reserva :=
  { id := st.nextId, usuario_id := d.usuario_id, clase_id := d.clase_id,
    fecha_reserva := today, horario := d.horario, dia_semana := d.dia_semana }

/-- `book_clase` (main.py): quota, duplicate, slot-existence and capacity checks
in source order, then one `Reserva` dated today is inserted and committed. -/
def book_clase (today : Date) (st : GymState) (d : ReservaCreate) :
    Except BookError GymState :=
  match st.usuarios.find? (fun u => u.id == d.usuario_id) with
  | none => .error .usuarioNotFound
  | some user =>
    match quotaStep st user today with
    | .error e => .error e
    | .ok _ =>
      if (findReservaDuplicada st d).isSome then .error .duplicado
      else
        match st.clases.find? (fun c => c.id == d.clase_id) with
        | none => .error .claseNotFound
        | some clase =>
          match clase.capacidad_max with
          | none => .error .capacidadTypeError
          | some cap =>
            if (cupoTurno st d.clase_id d.horario d.dia_semana : Int) ≥ cap then
              .error .sinCupos
            else
              .ok { st with
                reservas := st.reservas ++ [nuevaReserva today st d],
                nextId := st.nextId + 1 }

/-! ## Cash ledger (`crear_movimiento_caja`, `procesar_cobro`, main.py) -/

/-- `MovimientoCreate` request schema. -/
structure MovimientoCreate where
  descripcion : String
  monto : Rat
  tipo : String
  metodo_pago : String
deriving Repr, DecidableEq

/-- `crear_movimiento_caja` (main.py): coerces the type tag to "Egreso" when the
caller-supplied tag is "Gasto", "Compra" or "Egreso", stores `abs(monto)`, and
returns the created row. -/
def crear_movimiento_caja (now : Int) (st : GymState) (mov : MovimientoCreate) :
    GymState × MovimientoCaja :=
  let tipo_final := if ["Gasto", "Compra", "Egreso"].contains mov.tipo then "Egreso" else mov.tipo
  let nuevo_movimiento : MovimientoCaja :=
    { descripcion := mov.descripcion, monto := |mov.monto|, tipo := tipo_final,
      metodo_pago := mov.metodo_pago, fecha := now }
  ({ st with caja := st.caja ++ [nuevo_movimiento] }, nuevo_movimiento)

/-- `TransactionCreate` request schema. -/
structure TransactionCreate where
  tipo : String
  monto : Rat
  descripcion : String
  metodo_pago : String
  alumno_id : Option Int := none
  producto_id : Option Int := none
  cantidad : Int := 1
deriving Repr, DecidableEq

/-- Failures of `procesar_cobro` (HTTP 404 "Producto no encontrado"). -/
inductive CobroError
  | productoNotFound
deriving Repr, DecidableEq

/-- `plan.tipo` relationship: resolve `tipo_plan_id` in `tipos_planes`. -/
def tipoDePlan (st : GymState) (plan : Plan) : Option TipoPlan :=
  match plan.tipo_plan_id with
  | none => none
  | some tid => st.tipos_planes.find? (fun t => t.id == tid)

/-- Lines 1057-1060 of `procesar_cobro`:
`dias = 30; if plan.tipo and plan.tipo.duracion_dias: dias = plan.tipo.duracion_dias`.
Python truthiness makes `None` and `0` fall back to 30; any other value —
negative included — is used as-is. -/
def dias_duracion_plan : Option TipoPlan → Int
  | some t =>
    match t.duracion_dias with
    | some dur => if dur == 0 then 30 else dur
    | none => 30
  | none => 30

/-- The membership mutation of `procesar_cobro` (lines 1062-1072): stack the
duration on the current expiry when it is strictly in the future, otherwise
count from today; stamp the renewal date, set the account current and reassign
the plan. -/
def renovarAlumno (today : Date) (dias_duracion : Int) (plan_id : Int)
    (alumno : Usuario) : Usuario :=
  let base_fecha : Date :=
    match alumno.fecha_vencimiento with
    | some v => if v > today then v else today
    | none => today
  { alumno with
    fecha_ultima_renovacion := some today,
    fecha_vencimiento := some (base_fecha + dias_duracion),
    estado_cuenta := "Al día",
    plan_id := some plan_id }

/-- The ledger row inserted by `procesar_cobro` (lines 1021-1034): always an
income entry for the non-negative magnitude of the amount, with a generated
description when the caller supplied an empty one. -/
def cobroEntry (now : Int) (d : TransactionCreate) : MovimientoCaja :=
  { tipo := "Ingreso", monto := |d.monto|,
    descripcion := if d.descripcion == "" then "Cobro: " ++ d.tipo else d.descripcion,
    metodo_pago := d.metodo_pago, fecha := now }

/-- The merchandise block of `procesar_cobro` (lines 1038-1044): decrement the
stock of the referenced product, raising 404 when it does not exist. -/
def cobroStockStep (st1 : GymState) (d : TransactionCreate) :
    Except CobroError GymState :=
  if (d.tipo == "Mercaderia" || pyIn "ercader" d.tipo) && intTruthy d.producto_id then
    match d.producto_id with
    | some pid =>
      match st1.stock.find? (fun s => s.id == pid) with
      | none => .error .productoNotFound
      | some _ =>
        let stock2 := updateFirst (fun s => s.id == pid)
          (fun s => { s with stock_actual := s.stock_actual - d.cantidad }) st1.stock
        .ok { st1 with stock := stock2 }
    | none => .ok st1
  else .ok st1

/-- The plan block of `procesar_cobro` (lines 1047-1072): renew the membership
when the person and the referenced plan both exist, silently do nothing
otherwise. -/
def cobroPlanStep (today : Date) (st2 : GymState) (d : TransactionCreate) : GymState :=
  if (d.tipo == "Plan" || pyIn "plan" (pyLower d.tipo)) && intTruthy d.alumno_id then
    match d.alumno_id with
    | some aid =>
      let planQ : Option Plan := match d.producto_id with
        | none => none
        | some pid => st2.planes.find? (fun p => p.id == pid)
      match st2.usuarios.find? (fun u => u.id == aid), planQ with
      | some _, some plan =>
        let dias_duracion := dias_duracion_plan (tipoDePlan st2 plan)
        let usuarios2 := updateFirst (fun (u : Usuario) => u.id == aid)
          (renovarAlumno today dias_duracion plan.id) st2.usuarios
        { st2 with usuarios := usuarios2 }
      | _, _ => st2
    | none => st2
  else st2

/-- The `try` block of `procesar_cobro`: pending ledger insert, then the
merchandise stock decrement, then the plan-renewal mutation.  The assignment to
the unmapped attribute `alumno.clases_restantes` (no such column on `usuarios`)
is a silent no-op for the database and is omitted. -/
def procesar_cobro_try (today : Date) (now : Int) (st : GymState)
    (d : TransactionCreate) : Except CobroError GymState :=
  match cobroStockStep { st with caja := st.caja ++ [cobroEntry now d] } d with
  | .error e => .error e
  | .ok st2 => .ok (cobroPlanStep today st2 d)

/-- `procesar_cobro` (main.py): the `try/commit/except/rollback` wrapper.  On
success the pending state is committed; on any raised exception the session is
rolled back, so the caller observes the untouched input state. -/
def procesar_cobro (today : Date) (now : Int) (st : GymState)
    (d : TransactionCreate) : GymState × Except CobroError Unit :=
  match procesar_cobro_try today now st d with
  | .ok st2 => (st2, .ok ())
  | .error e => (st, .error e)

/-! ## Routine tracking (`create_plan_rutina`, main.py) -/

structure SerieCreate where
  numero_serie : Int
  repeticiones : String
  peso : String
  descanso : String
deriving Repr, DecidableEq

structure EjercicioEnRutinaCreate where
  ejercicio_id : Int
  series : List SerieCreate
  comentario : Option String
deriving Repr, DecidableEq

structure DiaRutinaCreate where
  nombre_dia : String
  ejercicios : Option (List EjercicioEnRutinaCreate)
deriving Repr, DecidableEq

structure PlanRutinaCreate where
  usuario_id : Int
  nombre_grupo : Option String
  descripcion : Option String
  objetivo : String
  fecha_vencimiento : Date
  dias : List DiaRutinaCreate
deriving Repr, DecidableEq

/-- Failures of `create_plan_rutina`.  `usuarioNotFound` is the 404 raised at
entry; `fkEjercicio eid` is the `IntegrityError` raised at `db.flush()` when the
inserted `EjercicioEnRutina.ejercicio_id` violates the foreign key into
`ejercicios_libreria` (models.py declares the FK; PostgreSQL enforces it). Both
are caught by the `except Exception` wrapper, which rolls back and re-raises as
HTTP 500. -/
inductive RutinaError
  | usuarioNotFound
  | fkEjercicio (eid : Int)
deriving Repr, DecidableEq

/-- Insert the `SerieEjercicio` rows of one exercise entry. -/
def insertSeries (ejId : Int) : List SerieCreate → GymState → GymState
  | [], st => st
  | s :: rest, st =>
    let fila : SerieEjercicio :=
      { id := st.nextId, ejercicio_en_rutina_id := ejId,
        numero_serie := s.numero_serie, repeticiones := s.repeticiones,
        peso := s.peso, descanso := s.descanso }
    let tabla := st.series_ejercicio ++ [fila]
    insertSeries ejId rest { st with series_ejercicio := tabla, nextId := st.nextId + 1 }

/-- Insert the `EjercicioEnRutina` rows of one day; the first row whose
`ejercicio_id` is absent from the exercise library fails its FK check at flush. -/
def insertEjercicios (diaId : Int) :
    List EjercicioEnRutinaCreate → GymState → Except RutinaError GymState
  | [], st => .ok st
  | e :: rest, st =>
    if (st.ejercicios_libreria.find? (fun ej => ej.id == e.ejercicio_id)).isSome then
      let ejId := st.nextId
      let fila : EjercicioEnRutina :=
        { id := ejId, dia_id := diaId, ejercicio_id := e.ejercicio_id,
          comentario := e.comentario }
      let tabla := st.ejercicios_en_rutina ++ [fila]
      let st1 := { st with ejercicios_en_rutina := tabla, nextId := st.nextId + 1 }
      insertEjercicios diaId rest (insertSeries ejId e.series st1)
    else .error (.fkEjercicio e.ejercicio_id)

/-- Insert the `DiaRutina` rows (with their exercise/set subtrees) of a plan. -/
def insertDias (planId : Int) :
    List DiaRutinaCreate → GymState → Except RutinaError GymState
  | [], st => .ok st
  | d :: rest, st =>
    let diaId := st.nextId
    let fila : DiaRutina := { id := diaId, plan_rutina_id := planId, nombre_dia := d.nombre_dia }
    let tabla := st.dias_rutina ++ [fila]
    let st1 := { st with dias_rutina := tabla, nextId := st.nextId + 1 }
    let lista_ejercicios := match d.ejercicios with
      | some es => es
      | none => []
    match insertEjercicios diaId lista_ejercicios st1 with
    | .error e => .error e
    | .ok st2 => insertDias planId rest st2

/-- The `try` block of `create_plan_rutina`: look up the user, deactivate every
`PlanRutina` of that user, insert the new active plan and its full tree. -/
def create_plan_rutina_try (today : Date) (st : GymState) (data : PlanRutinaCreate) :
    Except RutinaError (GymState × Int) :=
  match st.usuarios.find? (fun u => u.id == data.usuario_id) with
  | none => .error .usuarioNotFound
  | some _ =>
    let desactivados := st.planes_rutina.map
      (fun pl => if pl.usuario_id == data.usuario_id then { pl with activo := false } else pl)
    let st1 := { st with planes_rutina := desactivados }
    let planId := st1.nextId
    let nuevo_plan : PlanRutina :=
      { id := planId, usuario_id := data.usuario_id, nombre_grupo := data.nombre_grupo,
        descripcion := data.descripcion, fecha_creacion := today,
        fecha_vencimiento := data.fecha_vencimiento, objetivo := data.objetivo,
        activo := true }
    let tabla := st1.planes_rutina ++ [nuevo_plan]
    let st2 := { st1 with planes_rutina := tabla, nextId := st1.nextId + 1 }
    match insertDias planId data.dias st2 with
    | .error e => .error e
    | .ok st3 => .ok (st3, planId)

/-- `create_plan_rutina` (main.py): commit on success; the `except Exception`
wrapper rolls the whole transaction back on any failure. -/
def create_plan_rutina (today : Date) (st : GymState) (data : PlanRutinaCreate) :
    GymState × Except RutinaError Int :=
  match create_plan_rutina_try today st data with
  | .ok (st2, planId) => (st2, .ok planId)
  | .error e => (st, .error e)

/-- Number of active routine plans a person owns. -/
def countActive (st : GymState) (uid : Int) : Nat :=
  st.planes_rutina.countP (fun p => p.usuario_id == uid && p.activo)

/-- The §3 invariant: at most one active `PlanRutina` per person. -/
def activeInvariant (st : GymState) : Prop :=
  ∀ uid, countActive st uid ≤ 1

/-! ## Concrete fixtures used by witnesses and counterexamples -/

/-- An empty database. -/
def emptyState : GymState :=
  { usuarios := [], planes := [], tipos_planes := [], clases := [], reservas := [],
    stock := [], caja := [], accesos := [], planes_rutina := [], dias_rutina := [],
    ejercicios_libreria := [], ejercicios_en_rutina := [], series_ejercicio := [],
    nextId := 1 }

/-- A member whose plan expires on day 20010. -/
def alumnoAna : Usuario :=
  { id := 1, dni := "111", nombre_completo := "Ana", perfil_nombre := some "Alumno",
    plan_id := some 5, fecha_ultima_renovacion := none,
    fecha_vencimiento := some 20010, estado_cuenta := "Al día" }

def planMensual : Plan :=
  { id := 5, nombre := "Mensual", precio := 100, tipo_plan_id := some 2,
    clases_mensuales := some 12 }

def tipoMensual : TipoPlan := { id := 2, nombre := "Mensual", duracion_dias := some 30 }

/-- A small populated database. -/
def baseState : GymState := { emptyState with
  usuarios := [alumnoAna], planes := [planMensual], tipos_planes := [tipoMensual],
  clases := [{ id := 9, nombre := "Yoga", capacidad_max := some 20 }],
  stock := [{ id := 3, nombre_producto := "Protein", precio_venta := 10, stock_actual := 5 }],
  nextId := 100 }

/-- A concrete stand-in for the keyed sha256 hex digest. -/
def shaFix : String → String := fun s => "h" ++ s

/-! ## Helper lemmas -/

theorem updateFirst_find? {α : Type} (p : α → Bool) (f : α → α) (l : List α) (a : α)
    (h : l.find? p = some a) (hp : ∀ b, p (f b) = p b) :
    (updateFirst p f l).find? p = some (f a) := by
  induction l with
  | nil => simp at h
  | cons x xs ih =>
    by_cases hx : p x = true
    · rw [List.find?_cons_of_pos _ hx] at h
      injection h with h
      subst h
      rw [updateFirst, if_pos hx, List.find?_cons_of_pos _ ((hp x).trans hx)]
    · rw [List.find?_cons_of_neg _ hx] at h
      rw [updateFirst, if_neg hx, List.find?_cons_of_neg _ hx]
      exact ih h

/-- Core behaviour of `procesar_cobro` on a `Plan`-kind payment for an existing
person and plan: the ledger entry is appended and the first matching person row
is renewed by `renovarAlumno`. -/
theorem procesar_cobro_plan_spec (today now : Int) (st : GymState) (d : TransactionCreate)
    (aid pid : Int) (alumno : Usuario) (plan : Plan)
    (htipo : d.tipo = "Plan")
    (haid : d.alumno_id = some aid) (haid0 : aid ≠ 0)
    (hpid : d.producto_id = some pid)
    (halumno : st.usuarios.find? (fun u => u.id == aid) = some alumno)
    (hplan : st.planes.find? (fun p => p.id == pid) = some plan) :
    procesar_cobro today now st d =
      ({ st with
           caja := st.caja ++ [cobroEntry now d],
           usuarios := updateFirst (fun u => u.id == aid)
             (renovarAlumno today (dias_duracion_plan (tipoDePlan st plan)) plan.id)
             st.usuarios },
       .ok ()) := by
  have haid' : (aid != 0) = true := by simp [haid0]
  unfold procesar_cobro procesar_cobro_try cobroStockStep cobroPlanStep cobroEntry
  rw [htipo, haid, hpid]
  simp only [show (("Plan" == "Mercaderia") : Bool) = false from rfl,
    show pyIn "ercader" "Plan" = false from rfl,
    show (("Plan" == "Plan") : Bool) = true from rfl,
    intTruthy, haid', Bool.false_or, Bool.true_and, Bool.false_and,
    Bool.true_or, Bool.or_self, Bool.and_self,
    Bool.false_eq_true, Bool.true_eq_false, if_false, if_true,
    ite_true, ite_false, reduceIte]
  rw [halumno, hplan]
  rfl

/-! ## C1 -/

/-- C1: for every payment of kind Plan processed for an existing person and
existing plan, `procesar_cobro` succeeds and the person's row is updated so
that: if the current expiry is strictly in the future the new expiry is
`currentExpiry + duration`, otherwise (absent, today or past) it is
`today + duration`; the last-renewal date becomes today, the account status
becomes "Al día", and the plan reference is reassigned to the paid plan. -/
theorem C1_renewMembership (today now : Int) (st : GymState) (d : TransactionCreate)
    (aid pid : Int) (alumno : Usuario) (plan : Plan)
    (htipo : d.tipo = "Plan")
    (haid : d.alumno_id = some aid) (haid0 : aid ≠ 0)
    (hpid : d.producto_id = some pid)
    (halumno : st.usuarios.find? (fun u => u.id == aid) = some alumno)
    (hplan : st.planes.find? (fun p => p.id == pid) = some plan) :
    ∃ st' alumno', procesar_cobro today now st d = (st', .ok ()) ∧
      st'.usuarios.find? (fun u => u.id == aid) = some alumno' ∧
      alumno'.fecha_ultima_renovacion = some today ∧
      alumno'.estado_cuenta = "Al día" ∧
      alumno'.plan_id = some plan.id ∧
      (∀ v, alumno.fecha_vencimiento = some v → today < v →
        alumno'.fecha_vencimiento = some (v + dias_duracion_plan (tipoDePlan st plan))) ∧
      ((alumno.fecha_vencimiento = none ∨
          ∃ v, alumno.fecha_vencimiento = some v ∧ v ≤ today) →
        alumno'.fecha_vencimiento = some (today + dias_duracion_plan (tipoDePlan st plan))) := by
  have hmain := procesar_cobro_plan_spec today now st d aid pid alumno plan
    htipo haid haid0 hpid halumno hplan
  set dd := dias_duracion_plan (tipoDePlan st plan) with hdd
  refine ⟨_, renovarAlumno today dd plan.id alumno, hmain, ?_, rfl, rfl, rfl, ?_, ?_⟩
  · exact updateFirst_find? _ _ _ _ halumno (fun b => rfl)
  · intro v hv hlt
    simp only [renovarAlumno, hv]
    rw [if_pos hlt]
  · intro hcase
    rcases hcase with hnone | ⟨v, hv, hle⟩
    · simp only [renovarAlumno, hnone]
    · simp only [renovarAlumno, hv]
      rw [if_neg (not_lt.mpr hle)]

/-- Concrete plan payment: member 1 renews plan 5. -/
def dC1 : TransactionCreate :=
  { tipo := "Plan", monto := 100, descripcion := "", metodo_pago := "Efectivo",
    alumno_id := some 1, producto_id := some 5 }

/-- Witness for C1 at a concrete state: Ana's expiry 20010 is in the future of
day 20000, the plan lasts 30 days. -/
theorem C1_renewMembership_witness :
    ∃ st' alumno', procesar_cobro 20000 7 baseState dC1 = (st', .ok ()) ∧
      st'.usuarios.find? (fun u => u.id == 1) = some alumno' ∧
      alumno'.fecha_ultima_renovacion = some 20000 ∧
      alumno'.estado_cuenta = "Al día" ∧
      alumno'.plan_id = some planMensual.id ∧
      (∀ v, alumnoAna.fecha_vencimiento = some v → 20000 < v →
        alumno'.fecha_vencimiento = some (v + dias_duracion_plan (tipoDePlan baseState planMensual))) ∧
      ((alumnoAna.fecha_vencimiento = none ∨
          ∃ v, alumnoAna.fecha_vencimiento = some v ∧ v ≤ 20000) →
        alumno'.fecha_vencimiento = some (20000 + dias_duracion_plan (tipoDePlan baseState planMensual))) :=
  C1_renewMembership 20000 7 baseState dC1 1 5 alumnoAna planMensual
    rfl rfl (by decide) rfl (by decide) (by decide)

/-! ## C8 -/

/-- A plan type with a negative stored duration. -/
def tipoNeg : TipoPlan := { id := 8, nombre := "Promo", duracion_dias := some (-5) }

def planNeg : Plan :=
  { id := 6, nombre := "PromoPlan", precio := 50, tipo_plan_id := some 8,
    clases_mensuales := some 12 }

/-- A member with no expiry date on file. -/
def alumnoBeto : Usuario :=
  { id := 2, dni := "222", nombre_completo := "Beto", perfil_nombre := some "Alumno",
    plan_id := none, fecha_ultima_renovacion := none, fecha_vencimiento := none,
    estado_cuenta := "Al día" }

def stC8 : GymState := { emptyState with
  usuarios := [alumnoBeto], planes := [planNeg], tipos_planes := [tipoNeg], nextId := 50 }

def dC8 : TransactionCreate :=
  { tipo := "Plan", monto := 50, descripcion := "", metodo_pago := "Efectivo",
    alumno_id := some 2, producto_id := some 6 }

/-- Counterexample to C8 as stated: with `duracion_dias = -5` (set but
negative), Python truthiness keeps the negative value instead of falling back
to 30, so a renewal on day 100 of a member with no expiry yields expiry 95
(`today - 5`) and not 130 (`today + 30`) as the claim requires. -/
def alumnoBetoRenovado : Usuario :=
  { alumnoBeto with
    fecha_ultima_renovacion := some 100,
    fecha_vencimiento := some 95,
    estado_cuenta := "Al día",
    plan_id := some 6 }

theorem C8_duration_counterexample :
    tipoNeg.duracion_dias = some (-5) ∧
    dias_duracion_plan (some tipoNeg) = -5 ∧
    (procesar_cobro 100 0 stC8 dC8).1.usuarios.find? (fun u => u.id == 2) =
      some alumnoBetoRenovado ∧
    alumnoBetoRenovado.fecha_vencimiento = some 95 ∧
    (95 : Int) ≠ 100 + 30 := by decide

/-- C8 amended: for every Plan-kind payment for an existing person and plan,
the number of days added to the base date equals the PlanType duration whenever
that value is set and nonzero (negative values are used as-is), and equals 30
when the plan has no PlanType, the duration is unset, or the duration is zero. -/
theorem C8_duration_amended (today now : Int) (st : GymState) (d : TransactionCreate)
    (aid pid : Int) (alumno : Usuario) (plan : Plan)
    (htipo : d.tipo = "Plan")
    (haid : d.alumno_id = some aid) (haid0 : aid ≠ 0)
    (hpid : d.producto_id = some pid)
    (halumno : st.usuarios.find? (fun u => u.id == aid) = some alumno)
    (hplan : st.planes.find? (fun p => p.id == pid) = some plan) :
    ∃ st' alumno' base_fecha,
      procesar_cobro today now st d = (st', .ok ()) ∧
      st'.usuarios.find? (fun u => u.id == aid) = some alumno' ∧
      alumno'.fecha_vencimiento =
        some (base_fecha + dias_duracion_plan (tipoDePlan st plan)) ∧
      (tipoDePlan st plan = none → dias_duracion_plan (tipoDePlan st plan) = 30) ∧
      (∀ t, tipoDePlan st plan = some t → t.duracion_dias = none →
        dias_duracion_plan (tipoDePlan st plan) = 30) ∧
      (∀ t, tipoDePlan st plan = some t → t.duracion_dias = some 0 →
        dias_duracion_plan (tipoDePlan st plan) = 30) ∧
      (∀ t k, tipoDePlan st plan = some t → t.duracion_dias = some k → k ≠ 0 →
        dias_duracion_plan (tipoDePlan st plan) = k) := by
  have hmain := procesar_cobro_plan_spec today now st d aid pid alumno plan
    htipo haid haid0 hpid halumno hplan
  set dd := dias_duracion_plan (tipoDePlan st plan) with hdd
  refine ⟨_, renovarAlumno today dd plan.id alumno,
    (match alumno.fecha_vencimiento with
      | some v => if v > today then v else today
      | none => today),
    hmain, updateFirst_find? _ _ _ _ halumno (fun b => rfl), rfl, ?_, ?_, ?_, ?_⟩
  · intro h
    rw [hdd, h]
    rfl
  · intro t ht hdur
    rw [hdd, ht]
    simp [dias_duracion_plan, hdur]
  · intro t ht hdur
    rw [hdd, ht]
    simp [dias_duracion_plan, hdur]
  · intro t k ht hdur hk
    rw [hdd, ht]
    simp [dias_duracion_plan, hdur, hk]

/-- Witness for the amended C8 at a concrete input (plan type with 30 days). -/
theorem C8_duration_amended_witness :
    ∃ st' alumno' base_fecha,
      procesar_cobro 20000 7 baseState dC1 = (st', .ok ()) ∧
      st'.usuarios.find? (fun u => u.id == 1) = some alumno' ∧
      alumno'.fecha_vencimiento =
        some (base_fecha + dias_duracion_plan (tipoDePlan baseState planMensual)) ∧
      (tipoDePlan baseState planMensual = none →
        dias_duracion_plan (tipoDePlan baseState planMensual) = 30) ∧
      (∀ t, tipoDePlan baseState planMensual = some t → t.duracion_dias = none →
        dias_duracion_plan (tipoDePlan baseState planMensual) = 30) ∧
      (∀ t, tipoDePlan baseState planMensual = some t → t.duracion_dias = some 0 →
        dias_duracion_plan (tipoDePlan baseState planMensual) = 30) ∧
      (∀ t k, tipoDePlan baseState planMensual = some t → t.duracion_dias = some k →
        k ≠ 0 → dias_duracion_plan (tipoDePlan baseState planMensual) = k) :=
  C8_duration_amended 20000 7 baseState dC1 1 5 alumnoAna planMensual
    rfl rfl (by decide) rfl (by decide) (by decide)

/-! ## C4 -/

theorem cobroStockStep_ok_fields (st1 : GymState) (d : TransactionCreate) (st2 : GymState)
    (h : cobroStockStep st1 d = .ok st2) :
    st2.caja = st1.caja ∧ st2.usuarios = st1.usuarios ∧ st2.planes = st1.planes ∧
    st2.tipos_planes = st1.tipos_planes := by
  unfold cobroStockStep at h
  repeat' split at h
  all_goals try exact Except.noConfusion h
  all_goals injection h with h2
  all_goals subst h2
  all_goals exact ⟨rfl, rfl, rfl, rfl⟩

theorem cobroPlanStep_fields (today : Date) (st2 : GymState) (d : TransactionCreate) :
    (cobroPlanStep today st2 d).caja = st2.caja ∧
    (cobroPlanStep today st2 d).stock = st2.stock := by
  refine ⟨?_, ?_⟩ <;>
  · simp only [cobroPlanStep]
    repeat' split
    all_goals rfl

/-- C4: the ledger write and the stock or membership mutation of
`procesar_cobro` commit together: on any error the returned state is the
untouched input state (rollback), on success the ledger grew by exactly the one
income entry alongside whatever mutation the branch performed; in particular a
Merchandise payment naming a missing product fails with `productoNotFound` and
leaves everything unchanged. -/
theorem C4_atomic_commit (today now : Int) (st : GymState) (d : TransactionCreate) :
    (∀ e, (procesar_cobro today now st d).2 = .error e →
        (procesar_cobro today now st d).1 = st) ∧
    ((procesar_cobro today now st d).2 = .ok () →
        (procesar_cobro today now st d).1.caja = st.caja ++ [cobroEntry now d]) ∧
    (∀ pid, ((d.tipo == "Mercaderia" || pyIn "ercader" d.tipo)
          && intTruthy d.producto_id) = true →
        d.producto_id = some pid →
        st.stock.find? (fun s => s.id == pid) = none →
        procesar_cobro today now st d = (st, .error .productoNotFound)) := by
  refine ⟨?_, ?_, ?_⟩
  · intro e h
    unfold procesar_cobro at h ⊢
    cases htry : procesar_cobro_try today now st d with
    | ok st2 => rw [htry] at h; simp at h
    | error e2 => rfl
  · intro h
    unfold procesar_cobro at h ⊢
    cases htry : procesar_cobro_try today now st d with
    | error e2 => rw [htry] at h; simp at h
    | ok st2 =>
      unfold procesar_cobro_try at htry
      cases hss : cobroStockStep { st with caja := st.caja ++ [cobroEntry now d] } d with
      | error e3 => rw [hss] at htry; simp at htry
      | ok stx =>
        rw [hss] at htry
        injection htry with h2
        subst h2
        show (cobroPlanStep today stx d).caja = st.caja ++ [cobroEntry now d]
        rw [(cobroPlanStep_fields today stx d).1]
        exact (cobroStockStep_ok_fields _ d stx hss).1
  · intro pid hcond hpid hnone
    unfold procesar_cobro procesar_cobro_try cobroStockStep
    rw [hpid] at hcond
    simp [hcond, hpid, hnone]

/-- A merchandise payment naming a product id absent from stock. -/
def dC4 : TransactionCreate :=
  { tipo := "Mercaderia", monto := 10, descripcion := "venta", metodo_pago := "Efectivo",
    producto_id := some 99, cantidad := 1 }

/-- Witness for C4: the missing-product payment rolls back to the exact input
state, and a successful plan payment commits the single ledger entry. -/
theorem C4_atomic_commit_witness :
    procesar_cobro 20000 7 baseState dC4 = (baseState, .error .productoNotFound) ∧
    (procesar_cobro 20000 7 baseState dC1).1.caja = baseState.caja ++ [cobroEntry 7 dC1] :=
  ⟨(C4_atomic_commit 20000 7 baseState dC4).2.2 99 (by decide) rfl (by decide),
   (C4_atomic_commit 20000 7 baseState dC1).2.1 rfl⟩

/-! ## C7 -/

/-- Modelled from the spec: "if description implies an expense category, type
is coerced to Expense regardless of caller-supplied type".  The spec does not
define the test further; we read a description as implying an expense category
when it names one of the expense categories the code itself recognizes
("Gasto", "Compra"). -/
def spec_descImpliesExpense (descripcion : String) : Bool :=
  pyIn "Gasto" descripcion || pyIn "Compra" descripcion

/-- A movement whose description names an expense category but whose type tag
says income. -/
def movC7 : MovimientoCreate :=
  { descripcion := "Gasto varios", monto := 500, tipo := "Ingreso",
    metodo_pago := "Efectivo" }

/-- Counterexample to C7 as stated: a movement whose description names the
expense category "Gasto" but whose caller-supplied type tag is "Ingreso" is
stored with type "Ingreso" — `crear_movimiento_caja` inspects only the type
tag, never the description. -/
theorem C7_recordMovement_counterexample :
    spec_descImpliesExpense movC7.descripcion = true ∧
    (crear_movimiento_caja 7 emptyState movC7).2.tipo = "Ingreso" ∧
    "Ingreso" ≠ "Egreso" := by decide

/-- C7 amended: the stored amount is the non-negative magnitude of the caller
amount; the stored type is "Egreso" exactly when the caller-supplied type tag
is "Gasto", "Compra" or "Egreso" (otherwise the tag is stored as sent); the
description never influences the stored type. -/
theorem C7_recordMovement_amended (now : Int) (st : GymState) (mov : MovimientoCreate) :
    (crear_movimiento_caja now st mov).2.monto = |mov.monto| ∧
    ((crear_movimiento_caja now st mov).2.tipo =
      if ["Gasto", "Compra", "Egreso"].contains mov.tipo then "Egreso" else mov.tipo) ∧
    (crear_movimiento_caja now st mov).1.caja =
      st.caja ++ [(crear_movimiento_caja now st mov).2] ∧
    (∀ d2, (crear_movimiento_caja now st { mov with descripcion := d2 }).2.tipo =
      (crear_movimiento_caja now st mov).2.tipo) :=
  ⟨rfl, rfl, rfl, fun _ => rfl⟩

/-! ## C3 -/

/-- C3: for a booking request by an existing person the checks of `book_clase`
run in source order, each failing with its designated error — finite quota
reached (400), duplicate (person, slot, day, time) booking with no date filter
(400), missing slot (404), full (slot, day, time) occupancy (400) — and
otherwise exactly one booking dated today is inserted. -/
theorem C3_book_checks (today : Date) (st : GymState) (d : ReservaCreate) (user : Usuario)
    (huser : st.usuarios.find? (fun u => u.id == d.usuario_id) = some user) :
    (∀ plan limite, planDeUsuario st user = some plan →
        plan.clases_mensuales = some limite → limite < 999 →
        (countReservasMes st user.id today : Int) ≥ limite →
        book_clase today st d = .error (.quotaExceeded limite)) ∧
    (quotaStep st user today = .ok () →
        (findReservaDuplicada st d).isSome = true →
        book_clase today st d = .error .duplicado) ∧
    (quotaStep st user today = .ok () →
        (findReservaDuplicada st d).isSome = false →
        st.clases.find? (fun c => c.id == d.clase_id) = none →
        book_clase today st d = .error .claseNotFound) ∧
    (∀ clase cap, quotaStep st user today = .ok () →
        (findReservaDuplicada st d).isSome = false →
        st.clases.find? (fun c => c.id == d.clase_id) = some clase →
        clase.capacidad_max = some cap →
        (cupoTurno st d.clase_id d.horario d.dia_semana : Int) ≥ cap →
        book_clase today st d = .error .sinCupos) ∧
    (∀ clase cap, quotaStep st user today = .ok () →
        (findReservaDuplicada st d).isSome = false →
        st.clases.find? (fun c => c.id == d.clase_id) = some clase →
        clase.capacidad_max = some cap →
        (cupoTurno st d.clase_id d.horario d.dia_semana : Int) < cap →
        book_clase today st d = .ok { st with
          reservas := st.reservas ++ [nuevaReserva today st d],
          nextId := st.nextId + 1 }) ∧
    (BookError.httpStatus .duplicado = 400 ∧
     BookError.httpStatus .claseNotFound = 404 ∧
     BookError.httpStatus .sinCupos = 400 ∧
     ∀ l, BookError.httpStatus (.quotaExceeded l) = 400) := by
  refine ⟨?_, ?_, ?_, ?_, ?_, rfl, rfl, rfl, fun _ => rfl⟩
  · intro plan limite hplan hlim h999 hcnt
    have hq : quotaStep st user today = .error (.quotaExceeded limite) := by
      simp only [quotaStep, hplan, hlim]
      rw [if_pos h999, if_pos hcnt]
    simp only [book_clase, huser, hq]
  · intro hq hdup
    simp only [book_clase, huser, hq, hdup, reduceIte]
  · intro hq hdup hclase
    have hdup' : ¬((findReservaDuplicada st d).isSome = true) := by simp [hdup]
    simp only [book_clase, huser, hq]
    rw [if_neg hdup']
    simp only [hclase]
  · intro clase cap hq hdup hclase hcap hge
    have hdup' : ¬((findReservaDuplicada st d).isSome = true) := by simp [hdup]
    simp only [book_clase, huser, hq]
    rw [if_neg hdup']
    simp only [hclase, hcap]
    rw [if_pos hge]
  · intro clase cap hq hdup hclase hcap hlt
    have hdup' : ¬((findReservaDuplicada st d).isSome = true) := by simp [hdup]
    simp only [book_clase, huser, hq]
    rw [if_neg hdup']
    simp only [hclase, hcap]
    rw [if_neg (not_le.mpr hlt)]

/-- The concrete booking request used by the C3 witness. -/
def dC3 : ReservaCreate := { usuario_id := 1, clase_id := 9, horario := 18.5, dia_semana := 1 }

/-- The state after the C3 witness booking succeeds. -/
def stC3After : GymState :=
  { baseState with
    reservas := baseState.reservas ++ [nuevaReserva 20000 baseState dC3],
    nextId := baseState.nextId + 1 }

/-- Witness for C3: in `baseState` (quota 12 not reached, no duplicate, Yoga
slot with capacity 20 and empty occupancy) the booking succeeds and inserts
exactly one row dated today. -/
theorem C3_book_checks_witness :
    book_clase 20000 baseState dC3 = .ok stC3After :=
  (C3_book_checks 20000 baseState dC3 alumnoAna (by decide)).2.2.2.2.1
    { id := 9, nombre := "Yoga", capacidad_max := some 20 } 20
    rfl (by decide) (by decide) (by decide) (by decide)

/-! ## C2 -/

/-- C2: for a QR payload whose signature matches and whose identifier resolves
to a registered person with a non-staff role and a non-null expiry date, the
decision is AUTHORIZED exactly when the expiry is today or later; within three
days of expiry the colour is the "yellow" warning, distinct from the plain
"green"; once expired the decision is DENIED and the message carries the expiry
date. -/
theorem C2_qr_member_expiry (sha256hex : String → String) (today : Date) (now : Int)
    (logOk : Bool) (st : GymState) (qr dni hsig : String) (user : Usuario) (v : Date)
    (hc : pyHasChar qr ':' = true)
    (hsplit : pySplitCh ':' qr = [dni, hsig])
    (hsig_ok : hsig = sha256hex (dni ++ SECRET_KEY))
    (huser : st.usuarios.find? (fun u => u.dni == dni) = some user)
    (hrol : roles_staff.contains (pyLower (rolDeUsuario user)) = false)
    (hvenc : user.fecha_vencimiento = some v) :
    ∃ st' resp, validar_acceso_qr sha256hex today now logOk st qr = .ok (st', resp) ∧
      (resp.status = "AUTHORIZED" ↔ today ≤ v) ∧
      (today ≤ v → v - today ≤ 3 → resp.color = "yellow" ∧ resp.color ≠ "green") ∧
      (today ≤ v → 3 < v - today → resp.color = "green") ∧
      (v < today → resp.status = "DENIED" ∧
        resp.message = "Plan Vencido el " ++ toString v) := by
  subst hsig_ok
  have hc' : ¬((!pyHasChar qr ':') = true) := by simp [hc]
  have hbne : ¬((sha256hex (dni ++ SECRET_KEY) != sha256hex (dni ++ SECRET_KEY)) = true) := by
    simp
  have hrol' : ¬(roles_staff.contains (pyLower (rolDeUsuario user)) = true) := by
    rw [hrol]
    decide
  have heq : validar_acceso_qr sha256hex today now logOk st qr =
      .ok (accessLogStep now logOk st dni user (accessRespuesta today user),
           accessRespuesta today user) := by
    unfold validar_acceso_qr
    rw [if_neg hc']
    simp only [hsplit]
    rw [if_neg hbne]
    simp only [huser]
  have hR : accessRespuesta today user =
      if today ≤ v then
        (if v - today ≤ 3 then
          { status := "AUTHORIZED", message := "¡Atención: Próximo a vencer!",
            nombre := user.nombre_completo, rol := rolDeUsuario user, color := "yellow" }
        else
          { status := "AUTHORIZED",
            message := "Pase Válido (" ++ toString (v - today) ++ " días rest.)",
            nombre := user.nombre_completo, rol := rolDeUsuario user, color := "green" })
      else
        { status := "DENIED", message := "Plan Vencido el " ++ toString v,
          nombre := user.nombre_completo, rol := rolDeUsuario user, color := "red" } := by
    unfold accessRespuesta
    rw [if_neg hrol']
    simp only [hvenc]
  refine ⟨_, _, heq, ?_, ?_, ?_, ?_⟩
  · rw [hR]
    by_cases hle : today ≤ v
    · rw [if_pos hle]
      by_cases h3 : v - today ≤ 3
      · rw [if_pos h3]
        exact iff_of_true rfl hle
      · rw [if_neg h3]
        exact iff_of_true rfl hle
    · rw [if_neg hle]
      exact iff_of_false (fun h => by simp at h) hle
  · intro hle h3
    rw [hR, if_pos hle, if_pos h3]
    exact ⟨rfl, fun h => by simp at h⟩
  · intro hle h3
    rw [hR, if_pos hle, if_neg (not_le.mpr h3)]
  · intro hlt
    rw [hR, if_neg (not_le.mpr hlt)]
    exact ⟨rfl, rfl⟩

/-- The valid signed QR payload of member "111" under the concrete hash. -/
def qrAna : String := "111:" ++ shaFix ("111" ++ SECRET_KEY)

/-- Witness for C2: Ana (expiry 20010, role "Alumno") scanned on day 20008,
two days before expiry. -/
theorem C2_qr_member_expiry_witness :
    ∃ st' resp, validar_acceso_qr shaFix 20008 7 true baseState qrAna = .ok (st', resp) ∧
      (resp.status = "AUTHORIZED" ↔ (20008 : Int) ≤ 20010) ∧
      ((20008 : Int) ≤ 20010 → (20010 : Int) - 20008 ≤ 3 →
        resp.color = "yellow" ∧ resp.color ≠ "green") ∧
      ((20008 : Int) ≤ 20010 → (3 : Int) < 20010 - 20008 → resp.color = "green") ∧
      ((20010 : Int) < 20008 → resp.status = "DENIED" ∧
        resp.message = "Plan Vencido el " ++ toString (20010 : Int)) :=
  C2_qr_member_expiry shaFix 20008 7 true baseState qrAna "111"
    (shaFix ("111" ++ SECRET_KEY)) alumnoAna 20010
    (by decide) (by decide) rfl (by decide) (by decide) (by decide)

/-! ## C5 -/

/-- A roster with Ana and an empty access log. -/
def stC5 : GymState := { emptyState with usuarios := [alumnoAna] }

/-- The response of `validar_acceso_qr` to a forged signature. -/
def respFalsificado : AccessResponse :=
  { status := "DENIED", message := "Código QR no autorizado o falsificado",
    nombre := "Error Seguridad", rol := "N/A", color := "red" }

/-- Counterexample to C5 as stated: a forged-signature attempt is decided
DENIED, yet the returned state is exactly the input state — its access log is
still empty, so no `Acceso` row recording the attempt was appended. -/
theorem C5_accessLog_counterexample :
    validar_acceso_qr shaFix 20000 7 true stC5 "111:forged" = .ok (stC5, respFalsificado) ∧
    respFalsificado.status = "DENIED" ∧
    stC5.accesos = [] := by decide

/-- C5 amended: an `Acceso` row is appended only for attempts that pass the
signature check and resolve to a registered person; for those attempts exactly
one row recording the computed decision is appended, and a log-write failure
(`logOk = false`) is swallowed: the decision returned to the caller is
unchanged and only the log write is lost. -/
theorem C5_accessLog_amended (sha256hex : String → String) (today : Date) (now : Int)
    (st : GymState) (qr dni hsig : String) (user : Usuario)
    (hc : pyHasChar qr ':' = true)
    (hsplit : pySplitCh ':' qr = [dni, hsig])
    (hsig_ok : hsig = sha256hex (dni ++ SECRET_KEY))
    (huser : st.usuarios.find? (fun u => u.dni == dni) = some user) :
    ∃ st1 resp, validar_acceso_qr sha256hex today now true st qr = .ok (st1, resp) ∧
      validar_acceso_qr sha256hex today now false st qr = .ok (st, resp) ∧
      st1.accesos = st.accesos ++
        [{ usuario_id := user.id, fecha := now, accion := resp.status,
           exitoso := resp.status == "AUTHORIZED", nombre := user.nombre_completo,
           dni := dni, rol := resp.rol, metodo := "QR SCAN" }] := by
  subst hsig_ok
  have hc' : ¬((!pyHasChar qr ':') = true) := by simp [hc]
  have hbne : ¬((sha256hex (dni ++ SECRET_KEY) != sha256hex (dni ++ SECRET_KEY)) = true) := by
    simp
  refine ⟨accessLogStep now true st dni user (accessRespuesta today user),
    accessRespuesta today user, ?_, ?_, rfl⟩
  · unfold validar_acceso_qr
    rw [if_neg hc']
    simp only [hsplit]
    rw [if_neg hbne]
    simp only [huser]
  · unfold validar_acceso_qr
    rw [if_neg hc']
    simp only [hsplit]
    rw [if_neg hbne]
    simp only [huser]
    rfl

/-- Witness for the amended C5: Ana's valid scan on day 20000 appends exactly
one AUTHORIZED row, and the same scan with a failing log write returns the same
response over the untouched state. -/
theorem C5_accessLog_amended_witness :
    ∃ st1 resp, validar_acceso_qr shaFix 20000 7 true stC5 qrAna = .ok (st1, resp) ∧
      validar_acceso_qr shaFix 20000 7 false stC5 qrAna = .ok (stC5, resp) ∧
      st1.accesos = stC5.accesos ++
        [{ usuario_id := alumnoAna.id, fecha := 7, accion := resp.status,
           exitoso := resp.status == "AUTHORIZED", nombre := alumnoAna.nombre_completo,
           dni := "111", rol := resp.rol, metodo := "QR SCAN" }] :=
  C5_accessLog_amended shaFix 20000 7 stC5 qrAna "111"
    (shaFix ("111" ++ SECRET_KEY)) alumnoAna
    (by decide) (by decide) rfl (by decide)

/-! ## C10 -/

/-- The response returned for a payload with no colon at all. -/
def respFormatoInvalido : AccessResponse :=
  { status := "DENIED", message := "Formato de QR no válido", nombre := "Desconocido",
    rol := "N/A", color := "red" }

/-- C10: a payload with two or more colons ("a:b:c") makes the two-variable
unpacking of `raw_data.split(":")` raise an unhandled `ValueError` (HTTP 500),
whereas a payload with no colon at all gets the DENIED invalid-format
response. -/
theorem C10_qr_multi_colon :
    validar_acceso_qr shaFix 20000 7 true emptyState "a:b:c" = .error .valueError ∧
    validar_acceso_qr shaFix 20000 7 true emptyState "abc" =
      .ok (emptyState, respFormatoInvalido) := by decide

/-! ## C6 -/

theorem insertSeries_preserva (ejId : Int) (series : List SerieCreate) (st : GymState) :
    (insertSeries ejId series st).planes_rutina = st.planes_rutina ∧
    (insertSeries ejId series st).ejercicios_libreria = st.ejercicios_libreria := by
  induction series generalizing st with
  | nil => exact ⟨rfl, rfl⟩
  | cons s rest ih =>
    rw [insertSeries]
    exact ih _

theorem insertEjercicios_preserva (diaId : Int) (es : List EjercicioEnRutinaCreate)
    (st st2 : GymState) (h : insertEjercicios diaId es st = .ok st2) :
    st2.planes_rutina = st.planes_rutina ∧
    st2.ejercicios_libreria = st.ejercicios_libreria := by
  induction es generalizing st with
  | nil =>
    injection h with h2
    subst h2
    exact ⟨rfl, rfl⟩
  | cons e rest ih =>
    simp only [insertEjercicios] at h
    split at h
    · obtain ⟨hp, hl⟩ := ih _ h
      rw [hp, hl, (insertSeries_preserva _ _ _).1, (insertSeries_preserva _ _ _).2]
      exact ⟨rfl, rfl⟩
    · exact Except.noConfusion h

theorem insertDias_preserva (planId : Int) (ds : List DiaRutinaCreate)
    (st st2 : GymState) (h : insertDias planId ds st = .ok st2) :
    st2.planes_rutina = st.planes_rutina ∧
    st2.ejercicios_libreria = st.ejercicios_libreria := by
  induction ds generalizing st with
  | nil =>
    injection h with h2
    subst h2
    exact ⟨rfl, rfl⟩
  | cons d0 rest ih =>
    simp only [insertDias] at h
    split at h
    · exact Except.noConfusion h
    · rename_i stx hie
      obtain ⟨hp, hl⟩ := ih _ h
      obtain ⟨hp2, hl2⟩ := insertEjercicios_preserva _ _ _ _ hie
      rw [hp, hl, hp2, hl2]
      exact ⟨rfl, rfl⟩

theorem countP_deactivate_self (l : List PlanRutina) (target : Int) :
    ((l.map (fun pl => if pl.usuario_id == target then { pl with activo := false } else pl)).countP
      (fun p => p.usuario_id == target && p.activo)) = 0 := by
  induction l with
  | nil => rfl
  | cons x xs ih =>
    rw [List.map_cons, List.countP_cons, ih]
    by_cases hx : (x.usuario_id == target) = true
    · rw [if_pos hx]
      simp
    · rw [if_neg hx]
      simp [hx]

theorem countP_deactivate_ne (l : List PlanRutina) (target uid : Int) (h : uid ≠ target) :
    ((l.map (fun pl => if pl.usuario_id == target then { pl with activo := false } else pl)).countP
      (fun p => p.usuario_id == uid && p.activo)) =
    l.countP (fun p => p.usuario_id == uid && p.activo) := by
  induction l with
  | nil => rfl
  | cons x xs ih =>
    rw [List.map_cons, List.countP_cons, List.countP_cons, ih]
    congr 1
    by_cases hx : (x.usuario_id == target) = true
    · rw [if_pos hx]
      have hxu : (x.usuario_id == uid) = false := by
        have hxt : x.usuario_id = target := by simpa using hx
        simp [hxt, Ne.symm h]
      simp [hxu]
    · rw [if_neg hx]

/-- C6: every successful `create_plan_rutina` leaves its person with exactly
one active routine plan, leaves every other person's active count untouched,
and therefore preserves the at-most-one-active-plan-per-person invariant — the
call first deactivates all of the person's plans, then inserts the single new
active one. -/
theorem C6_active_unique (today : Date) (st : GymState) (data : PlanRutinaCreate)
    (st' : GymState) (rid : Int)
    (hok : create_plan_rutina today st data = (st', .ok rid)) :
    countActive st' data.usuario_id = 1 ∧
    (∀ uid, uid ≠ data.usuario_id → countActive st' uid = countActive st uid) ∧
    (activeInvariant st → activeInvariant st') := by
  have htry : create_plan_rutina_try today st data = .ok (st', rid) := by
    unfold create_plan_rutina at hok
    cases h2 : create_plan_rutina_try today st data with
    | ok pr =>
      cases pr with
      | mk stx ridx =>
        rw [h2] at hok
        injection hok with ha hb
        subst ha
        injection hb with hb
        subst hb
        rfl
    | error e =>
      rw [h2] at hok
      injection hok with ha hb
      exact Except.noConfusion hb
  unfold create_plan_rutina_try at htry
  cases hu : st.usuarios.find? (fun u => u.id == data.usuario_id) with
  | none =>
    rw [hu] at htry
    exact Except.noConfusion htry
  | some u =>
    simp only [hu] at htry
    split at htry
    · exact Except.noConfusion htry
    · rename_i st3 hins
      obtain ⟨hst, hid⟩ : st3 = st' ∧ st.nextId = rid := by
        injection htry with h1
        injection h1 with h1a h1b
        exact ⟨h1a, h1b⟩
      rw [hst] at hins
      have hfinal : st'.planes_rutina =
          (st.planes_rutina.map (fun pl =>
            if pl.usuario_id == data.usuario_id then { pl with activo := false } else pl)) ++
          [{ id := st.nextId, usuario_id := data.usuario_id,
             nombre_grupo := data.nombre_grupo, descripcion := data.descripcion,
             fecha_creacion := today, fecha_vencimiento := data.fecha_vencimiento,
             objetivo := data.objetivo, activo := true }] :=
        (insertDias_preserva _ _ _ _ hins).1
      have hone : countActive st' data.usuario_id = 1 := by
        unfold countActive
        rw [hfinal, List.countP_append, countP_deactivate_self]
        simp
      have hoth : ∀ uid, uid ≠ data.usuario_id →
          countActive st' uid = countActive st uid := by
        intro uid hne
        unfold countActive
        rw [hfinal, List.countP_append, countP_deactivate_ne _ _ _ hne]
        have hnuevo : ((data.usuario_id == uid) && true) = false := by
          simp [Ne.symm hne]
        simp [hnuevo]
      refine ⟨hone, hoth, ?_⟩
      intro hinv uid
      by_cases hcase : uid = data.usuario_id
      · rw [hcase, hone]
      · rw [hoth uid hcase]
        exact hinv uid

/-- Library exercise number 77. -/
def ejercicioPress : Ejercicio :=
  { id := 77, nombre := "Press banca", grupo_muscular_id := some 1 }

/-- An older routine plan of Ana, still active. -/
def planRutinaVieja : PlanRutina :=
  { id := 40, usuario_id := 1, nombre_grupo := none, descripcion := none,
    fecha_creacion := 19000, fecha_vencimiento := 19100, objetivo := "Base",
    activo := true }

def serieC6 : SerieCreate :=
  { numero_serie := 1, repeticiones := "10", peso := "20kg", descanso := "60s" }

def entradaC6 : EjercicioEnRutinaCreate :=
  { ejercicio_id := 77, series := [serieC6], comentario := some "" }

def diaC6 : DiaRutinaCreate := { nombre_dia := "Lunes", ejercicios := some [entradaC6] }

def dataC6 : PlanRutinaCreate :=
  { usuario_id := 1, nombre_grupo := some "Semana A", descripcion := some "",
    objetivo := "Fuerza", fecha_vencimiento := 20100, dias := [diaC6] }

def stC6 : GymState := { emptyState with
  usuarios := [alumnoAna], ejercicios_libreria := [ejercicioPress],
  planes_rutina := [planRutinaVieja], nextId := 100 }

/-- The committed state of the C6 witness run. -/
def stC6After : GymState := (create_plan_rutina 20000 stC6 dataC6).1

/-- Witness for C6: creating a new plan for Ana, who already had an active one,
leaves her with exactly one active plan and preserves the invariant. -/
theorem C6_active_unique_witness :
    countActive stC6After dataC6.usuario_id = 1 ∧
    (∀ uid, uid ≠ dataC6.usuario_id → countActive stC6After uid = countActive stC6 uid) ∧
    (activeInvariant stC6 → activeInvariant stC6After) :=
  C6_active_unique 20000 stC6 dataC6 stC6After 100 (by decide)

/-! ## C9 -/

theorem insertEjercicios_ok_found (diaId : Int) (es : List EjercicioEnRutinaCreate)
    (st st2 : GymState) (h : insertEjercicios diaId es st = .ok st2) :
    ∀ e ∈ es, (st.ejercicios_libreria.find? (fun ej => ej.id == e.ejercicio_id)).isSome = true := by
  induction es generalizing st with
  | nil =>
    intro e he
    exact absurd he (List.not_mem_nil e)
  | cons e0 rest ih =>
    simp only [insertEjercicios] at h
    split at h
    · rename_i hfound
      intro e he
      rcases List.mem_cons.mp he with rfl | hmem
      · exact hfound
      · have hrec := ih _ h e hmem
        rw [(insertSeries_preserva _ _ _).2] at hrec
        exact hrec
    · exact Except.noConfusion h

theorem insertDias_ok_found (planId : Int) (ds : List DiaRutinaCreate)
    (st st2 : GymState) (h : insertDias planId ds st = .ok st2) :
    ∀ d0 ∈ ds, ∀ es, d0.ejercicios = some es → ∀ e ∈ es,
      (st.ejercicios_libreria.find? (fun ej => ej.id == e.ejercicio_id)).isSome = true := by
  induction ds generalizing st with
  | nil =>
    intro d0 hd0
    exact absurd hd0 (List.not_mem_nil d0)
  | cons dh rest ih =>
    simp only [insertDias] at h
    split at h
    · exact Except.noConfusion h
    · rename_i stx hie
      intro d0 hd0 es hes e he
      rcases List.mem_cons.mp hd0 with rfl | hmem
      · rw [hes] at hie
        exact insertEjercicios_ok_found _ _ _ _ hie e he
      · have hrec := ih _ h d0 hmem es hes e he
        have hlib := (insertEjercicios_preserva _ _ _ _ hie).2
        rw [hlib] at hrec
        exact hrec

/-- C9 amended: an exercise entry referencing a nonexistent library Exercise id
is NOT skipped — the insert violates the foreign key into the exercise library,
the resulting exception aborts `create_plan_rutina`, and the whole transaction
(new plan, days, valid exercises, sets) is rolled back: the returned state is
the untouched input state. -/
theorem C9_fk_aborts (today : Date) (st : GymState) (data : PlanRutinaCreate)
    (huser : (st.usuarios.find? (fun u => u.id == data.usuario_id)).isSome = true)
    (hbad : ∃ d0 ∈ data.dias, ∃ es, d0.ejercicios = some es ∧ ∃ e ∈ es,
      st.ejercicios_libreria.find? (fun ej => ej.id == e.ejercicio_id) = none) :
    ∃ err, create_plan_rutina today st data = (st, .error err) := by
  cases htry : create_plan_rutina_try today st data with
  | error e =>
    refine ⟨e, ?_⟩
    unfold create_plan_rutina
    rw [htry]
  | ok pr =>
    exfalso
    obtain ⟨d0, hd0, es, hes, e, he, hnone⟩ := hbad
    obtain ⟨u, hu⟩ := Option.isSome_iff_exists.mp huser
    unfold create_plan_rutina_try at htry
    simp only [hu] at htry
    split at htry
    · exact Except.noConfusion htry
    · rename_i st3 hins
      have hfound := insertDias_ok_found _ _ _ _ hins d0 hd0 es hes e he
      have hfound2 : (st.ejercicios_libreria.find?
          (fun ej => ej.id == e.ejercicio_id)).isSome = true := hfound
      rw [hnone] at hfound2
      exact absurd hfound2 (by decide)

/-- An exercise entry referencing library id 555, which does not exist. -/
def entradaC9 : EjercicioEnRutinaCreate :=
  { ejercicio_id := 555, series := [], comentario := some "" }

def diaC9 : DiaRutinaCreate := { nombre_dia := "Lunes", ejercicios := some [entradaC9] }

def dataC9 : PlanRutinaCreate :=
  { usuario_id := 1, nombre_grupo := some "G", descripcion := some "",
    objetivo := "Fuerza", fecha_vencimiento := 20100, dias := [diaC9] }

def stC9 : GymState := { emptyState with
  usuarios := [alumnoAna], ejercicios_libreria := [ejercicioPress], nextId := 10 }

/-- Counterexample to C9 as stated: the plan whose only exercise entry names
the nonexistent library id 555 is not partially created — the call errors out
and the returned state still has no routine plans, days or exercises at all. -/
theorem C9_skip_counterexample :
    create_plan_rutina 20000 stC9 dataC9 = (stC9, .error (.fkEjercicio 555)) ∧
    (create_plan_rutina 20000 stC9 dataC9).1.planes_rutina = [] ∧
    (create_plan_rutina 20000 stC9 dataC9).1.dias_rutina = [] := by decide

/-- Witness for the amended C9 at the same concrete input. -/
theorem C9_fk_aborts_witness :
    ∃ err, create_plan_rutina 20000 stC9 dataC9 = (stC9, .error err) :=
  C9_fk_aborts 20000 stC9 dataC9 (by decide)
    ⟨diaC9, by decide, [entradaC9], rfl, entradaC9, by decide, by decide⟩

end Gym
